import Mathlib

/-!
Shallow embedding of the mDNS discovery engine (src/src/mdns.rs and
src/src/discover.rs), with the external collaborators (the dns_parser
codec, the UDP socket, interface enumeration) abstracted as parameters,
and theorems settling the specification claims about it.
-/

namespace MdnsSpec

/-- Source addresses are abstract tokens; only equality matters here. -/
def Addr : Type := Nat

/-- Modelled from the spec: the answer `Record` of the missing response
module — "a set of answer records (each with a name, record type, and
type-specific payload)". Only `name` is inspected by the code under
`src/`; `payload` stands in for the remaining type-specific data. -/
structure Record where
  name : String
  payload : Nat
  deriving DecidableEq, Repr

/-- Modelled from the spec: the decoded `Response` the caller sees —
"a set of answer records ... plus the source address". -/
structure Response where
  addr : Nat
  answers : List Record
  deriving DecidableEq, Repr

/-- Modelled from the spec: `Response::is_empty` of the missing response
module; a response is empty when it has no answer records ("Drop the
response if it has no answer records AND ignore_empty is true"). -/
def Response.is_empty (r : Response) : Bool :=
  r.answers.isEmpty

/-- One IPv4 address, `std::net::Ipv4Addr` (four octets). -/
structure Ipv4 where
  a : Nat
  b : Nat
  c : Nat
  d : Nat
  deriving DecidableEq, Repr

/-- mdns.rs line 17: `MULTICAST_ADDR = Ipv4Addr::new(224, 0, 0, 251)`. -/
def MULTICAST_ADDR : Ipv4 := ⟨224, 0, 0, 251⟩

/-- mdns.rs line 18: `MULTICAST_PORT = 5353`. -/
def MULTICAST_PORT : Nat := 5353

/-- mdns.rs line 72: `ADDR_ANY = Ipv4Addr::new(0, 0, 0, 0)`. -/
def ADDR_ANY : Ipv4 := ⟨0, 0, 0, 0⟩

/-- An IP address as returned by interface enumeration (`IpAddr`). -/
inductive IpAddrM where
  | v4 (addr : Ipv4)
  | v6
  deriving DecidableEq, Repr

/-- One entry of `if_addrs::get_if_addrs()`: an address plus its
loopback flag. -/
structure Iface where
  is_loopback : Bool
  addr : IpAddrM
  deriving DecidableEq, Repr

/-- Environment of external effects consumed by `mdns_interface`: the
result of each socket setup call, the multicast-join result per
interface address, and interface enumeration. Each is modelled as the
(deterministic) result the OS would return. -/
structure NetEnv (ε : Type) where
  create_socket : Except ε Unit
  set_multicast_loop_v4 : Except ε Unit
  set_nonblocking : Except ε Unit
  join_multicast_v4 : Ipv4 → Except ε Unit
  get_if_addrs : Except ε (List Iface)
  make_async_socket : Except ε Unit

/-- Truth value of an `Except` being `Ok`, as `.is_ok()` in Rust. -/
def exceptOk {ε α : Type} : Except ε α → Bool
  | .ok _ => true
  | .error _ => false

/-- mdns.rs lines 35-44: the interface addresses the all-interfaces
branch iterates over — every enumerated interface that is not loopback
and has an IPv4 address. -/
def v4Ifaces (ifaces : List Iface) : List Ipv4 :=
  (ifaces.filter (fun iface => !iface.is_loopback)).filterMap
    (fun iface =>
      match iface.addr with
      | .v4 a => some a
      | .v6 => none)

/-- mdns.rs lines 33-50: the value of `did_join` after the loop — true
exactly when enumeration succeeded and joining the multicast group
succeeded on at least one candidate interface. (The loop attempts the
join on every candidate; with join results a function of the address,
`did_join` is whether any attempt succeeded.) -/
def didJoinAll {ε : Type} (env : NetEnv ε) : Bool :=
  match env.get_if_addrs with
  | .error _ => false
  | .ok ifaces =>
      (v4Ifaces ifaces).any (fun a => exceptOk (env.join_multicast_v4 a))

/-- The receive half returned by `mdns_interface` (mdns.rs lines 120-123):
it owns the receive buffer, modelled by its length (mdns.rs line 58:
`vec![0; 4096]`). -/
structure mDNSListenerM where
  recv_buffer_len : Nat
  deriving DecidableEq, Repr

/-- The send half returned by `mdns_interface` (mdns.rs lines 92-95). -/
structure mDNSSenderM where
  service_name : String
  deriving DecidableEq, Repr

/-- mdns.rs lines 20-70: `mdns_interface`. Creates the socket, sets the
options, joins the multicast group (on the requested interface, or on
all non-loopback IPv4 interfaces with a wildcard fallback), wraps the
socket, and returns the listener (with its 4096-byte receive buffer)
and the sender. Every `?` is the `Except` bind. -/
def mdns_interface {ε : Type} (env : NetEnv ε) (service_name : String)
    (interface : Option Ipv4) : Except ε (mDNSListenerM × mDNSSenderM) :=
  match env.create_socket with
  | .error e => .error e
  | .ok _ =>
  match env.set_multicast_loop_v4 with
  | .error e => .error e
  | .ok _ =>
  match env.set_nonblocking with
  | .error e => .error e
  | .ok _ =>
  match (match interface with
         | some iface => env.join_multicast_v4 iface
         | none =>
             if didJoinAll env then Except.ok ()
             else env.join_multicast_v4 ADDR_ANY) with
  | .error e => .error e
  | .ok _ =>
  match env.make_async_socket with
  | .error e => .error e
  | .ok _ =>
      .ok ({ recv_buffer_len := 4096 }, { service_name := service_name })

/-- One receive attempt on the shared socket, as seen by the listener
loop: either a datagram (its full byte content plus the source address)
or a transport error from `recv_from`. -/
inductive RecvEvent (ε : Type) where
  | datagram (bytes : List Nat) (addr : Nat)
  | failure (e : ε)

/-- mdns.rs lines 126-138: `mDNSListener::listen`, over a finite prefix
of receive events. `parse` is `dns_parser::Packet::parse` and
`from_packet` is `Response::from_packet` (both external to `src/`).
`recv_from` into the reused buffer delivers `count = min(len, buffer)`
bytes, the datagram truncated to the buffer size; the slice
`&buffer[..count]` is `bytes.take count`. In `try_stream!` the `?` on
`recv_from` yields the error as the final item and returns, ending the
stream. -/
def mDNSListenerM.listen {ε π : Type} (l : mDNSListenerM)
    (parse : List Nat → Option π) (from_packet : π → Nat → Response) :
    List (RecvEvent ε) → List (Except ε Response)
  | [] => []
  | .failure e :: _ => [.error e]
  | .datagram bytes addr :: rest =>
      if min bytes.length l.recv_buffer_len > 0 then
        match parse (bytes.take (min bytes.length l.recv_buffer_len)) with
        | some raw_packet =>
            .ok (from_packet raw_packet addr) :: l.listen parse from_packet rest
        | none => l.listen parse from_packet rest
      else l.listen parse from_packet rest

/-- discover.rs lines 37-45: the `Discovery` session. -/
structure Discovery where
  service_name : String
  mdns_sender : mDNSSenderM
  mdns_listener : mDNSListenerM
  ignore_empty : Bool
  deriving DecidableEq, Repr

/-- discover.rs lines 48-61: `all` — open on every interface and build
the session with `ignore_empty: true`. -/
def all {ε : Type} (env : NetEnv ε) (service_name : String) :
    Except ε Discovery :=
  match mdns_interface env service_name none with
  | .error e => .error e
  | .ok (mdns_listener, mdns_sender) =>
      .ok { service_name := service_name, mdns_sender := mdns_sender,
            mdns_listener := mdns_listener, ignore_empty := true }

/-- discover.rs lines 64-77: `interface` — open on one interface and
build the session with `ignore_empty: true`. -/
def interface {ε : Type} (env : NetEnv ε) (service_name : String)
    (interface_addr : Ipv4) : Except ε Discovery :=
  match mdns_interface env service_name (some interface_addr) with
  | .error e => .error e
  | .ok (mdns_listener, mdns_sender) =>
      .ok { service_name := service_name, mdns_sender := mdns_sender,
            mdns_listener := mdns_listener, ignore_empty := true }

/-- discover.rs lines 83-86: the builder method `Discovery::ignore_empty`
(renamed here to avoid clashing with the field accessor). -/
def Discovery.set_ignore_empty (d : Discovery) (ignore : Bool) : Discovery :=
  { d with ignore_empty := ignore }

/-- discover.rs lines 103-113: the relevance-filter predicate applied by
`Discovery::listen` to each item of the listener stream. -/
def filterKeep {ε : Type} (service_name : String) (ignore_empty : Bool) :
    Except ε Response → Bool
  | .ok response =>
      (!response.is_empty || !ignore_empty)
        && response.answers.any (fun record => record.name == service_name)
  | .error _ => true

/-- discover.rs lines 119-120: `DiscoveryScanner` wraps the sender. -/
structure DiscoveryScanner where
  sender : mDNSSenderM
  deriving DecidableEq, Repr

/-- discover.rs lines 88-116: `Discovery::listen` — splits the session
into the scanner and the listener stream filtered by `filterKeep`. -/
def Discovery.listen {ε π : Type} (d : Discovery)
    (parse : List Nat → Option π) (from_packet : π → Nat → Response)
    (events : List (RecvEvent ε)) :
    DiscoveryScanner × List (Except ε Response) :=
  (⟨d.mdns_sender⟩,
    (d.mdns_listener.listen parse from_packet events).filter
      (filterKeep d.service_name d.ignore_empty))

/-- Query types of `dns_parser::QueryType` — only the variant the code
uses, plus one other to keep the type non-trivial. -/
inductive QueryType where
  | PTR
  | A
  deriving DecidableEq, Repr

/-- Query classes of `dns_parser::QueryClass` — only the variant the
code uses, plus one other to keep the type non-trivial. -/
inductive QueryClass where
  | IN
  | CH
  deriving DecidableEq, Repr

/-- One DNS question as assembled by `Builder::add_question`: the name,
the unicast-response (prefer-unicast) bit, the query type and class. -/
structure Question where
  name : String
  prefer_unicast : Bool
  qtype : QueryType
  qclass : QueryClass
  deriving DecidableEq, Repr

/-- The query packet assembled by the builder calls in `send_request`:
`Builder::new_query(id, recursion)` fixes the header, `add_question`
appends the question. -/
structure QueryPacket where
  id : Nat
  recursion_desired : Bool
  questions : List Question
  deriving DecidableEq, Repr

/-- mdns.rs lines 100-107: the packet `send_request` builds —
`Builder::new_query(0, false)` then one `add_question(&service_name,
false, QueryType::PTR, QueryClass::IN)`. -/
def queryPacket (service_name : String) : QueryPacket :=
  { id := 0, recursion_desired := false,
    questions := [{ name := service_name, prefer_unicast := false,
                    qtype := .PTR, qclass := .IN }] }

/-- mdns.rs line 110: the destination of the send —
`SocketAddr::new(MULTICAST_ADDR, MULTICAST_PORT)`. -/
def sendTarget : Ipv4 × Nat := (MULTICAST_ADDR, MULTICAST_PORT)

/-- The observable outcome of one `send_request` call: the `unwrap` on
`builder.build()` panicked, the datagram was sent and `Ok(())`
returned, or the socket send failed and its error propagated. -/
inductive SendOutcome (ε : Type) where
  | panicked
  | sent
  | transport_failed (e : ε)
  deriving DecidableEq, Repr

/-- mdns.rs lines 99-114: `mDNSSender::send_request`. `encode` is the
external codec (`builder.build()`), a function of the built packet;
`send_result` is the outcome of `send_to` on the shared socket. Returns
the outcome together with the datagrams this call put on the wire (each
with its destination). -/
def mDNSSenderM.send_request {ε : Type} (s : mDNSSenderM)
    (encode : QueryPacket → Option (List Nat))
    (send_result : Except ε Unit) :
    SendOutcome ε × List (List Nat × (Ipv4 × Nat)) :=
  match encode (queryPacket s.service_name) with
  | none => (.panicked, [])
  | some packet_data =>
      match send_result with
      | .ok _ => (.sent, [(packet_data, sendTarget)])
      | .error e => (.transport_failed e, [])

/-- discover.rs lines 122-124: `DiscoveryScanner::scan` delegates to
`send_request`. -/
def DiscoveryScanner.scan {ε : Type} (sc : DiscoveryScanner)
    (encode : QueryPacket → Option (List Nat))
    (send_result : Except ε Unit) :
    SendOutcome ε × List (List Nat × (Ipv4 × Nat)) :=
  sc.sender.send_request encode send_result

/-- A run of `n` consecutive `scan` calls, the `i`-th socket send
returning `send_result i`: the outcomes of the calls in order and the
concatenated wire trace. -/
def scanRuns {ε : Type} (sc : DiscoveryScanner)
    (encode : QueryPacket → Option (List Nat))
    (send_result : Nat → Except ε Unit) :
    Nat → List (SendOutcome ε) × List (List Nat × (Ipv4 × Nat))
  | 0 => ([], [])
  | n + 1 =>
      let prev := scanRuns sc encode send_result n
      let step := sc.scan encode (send_result n)
      (prev.1 ++ [step.1], prev.2 ++ step.2)

/-- Concrete decoder used for evaluations: accepts exactly the datagram
`[1]`. -/
def parseDemo : List Nat → Option Nat :=
  fun bytes => if bytes = [1] then some 1 else none

/-- Concrete `Response::from_packet` stand-in used for evaluations. -/
def fromPacketDemo : Nat → Nat → Response :=
  fun p addr => { addr := addr, answers := [{ name := "svc", payload := p }] }

/-- Concrete listener used for evaluations: the 4096-byte buffer the
code allocates. -/
def listenerDemo : mDNSListenerM := { recv_buffer_len := 4096 }

/-- Concrete environment used for witnesses: every socket call
succeeds, enumeration yields one loopback and one usable interface. -/
def envDemo : NetEnv Nat :=
  { create_socket := .ok ()
    set_multicast_loop_v4 := .ok ()
    set_nonblocking := .ok ()
    join_multicast_v4 := fun _ => .ok ()
    get_if_addrs := .ok [⟨true, .v4 ⟨127, 0, 0, 1⟩⟩, ⟨false, .v4 ⟨192, 168, 0, 2⟩⟩]
    make_async_socket := .ok () }

/-- Concrete codec used for evaluations: every packet encodes to the
single byte `9`. -/
def encodeDemo : QueryPacket → Option (List Nat) :=
  fun _ => some [9]

/-- Concrete session used for evaluations. -/
def discoveryDemo : Discovery :=
  { service_name := "_foo._tcp.local"
    mdns_sender := { service_name := "_foo._tcp.local" }
    mdns_listener := { recv_buffer_len := 4096 }
    ignore_empty := true }

/-- C1: the relevance filter of `Discovery::listen` forwards an
`Ok(Response)` exactly when (the response has at least one answer
record, or `ignore_empty` is false) and at least one of its answer
records has a name equal to the session's service name. In particular
it drops a response none of whose answer names match, regardless of
`ignore_empty`, and forwards a response as soon as any one answer
matches. -/
theorem filter_forwards_ok_iff {ε : Type} (service_name : String)
    (ignore_empty : Bool) (r : Response) :
    filterKeep (ε := ε) service_name ignore_empty (.ok r) = true ↔
      ((r.answers ≠ [] ∨ ignore_empty = false) ∧
        ∃ record ∈ r.answers, record.name = service_name) := by
  simp [filterKeep, Response.is_empty, List.any_eq_true]

/-- C2: the relevance filter of `Discovery::listen` always keeps `Err`
items: the predicate is true on every error, and every error item of
the listener stream survives the filtering. -/
theorem filter_forwards_err {ε : Type} (service_name : String)
    (ignore_empty : Bool) (e : ε) (items : List (Except ε Response))
    (h : Except.error e ∈ items) :
    filterKeep service_name ignore_empty (Except.error e) = true ∧
      Except.error e ∈ items.filter (filterKeep service_name ignore_empty) := by
  exact ⟨rfl, List.mem_filter.mpr ⟨h, rfl⟩⟩

/-- Witness for C2 at a concrete error item. -/
theorem filter_forwards_err_witness :
    filterKeep "x" true (Except.error 5) = true ∧
      Except.error 5 ∈
        ([Except.error 5] : List (Except Nat Response)).filter
          (filterKeep "x" true) :=
  filter_forwards_err "x" true 5 [Except.error 5] (by simp)

/-- C3: a datagram whose bytes fail to decode yields neither an `Err`
nor a `Response`: the listener stream on it is the stream on the
remaining events, which keeps yielding items for subsequent valid
datagrams. -/
theorem listen_skips_malformed {ε π : Type} (l : mDNSListenerM)
    (parse : List Nat → Option π) (from_packet : π → Nat → Response)
    (bytes : List Nat) (addr : Nat) (rest : List (RecvEvent ε))
    (h : parse (bytes.take (min bytes.length l.recv_buffer_len)) = none) :
    l.listen parse from_packet (.datagram bytes addr :: rest) =
      l.listen parse from_packet rest := by
  rw [mDNSListenerM.listen, h]
  split <;> rfl

/-- Witness for C3: a malformed datagram followed by a valid one yields
exactly the valid one's item. -/
theorem listen_skips_malformed_witness :
    listenerDemo.listen (ε := Nat) parseDemo fromPacketDemo
        [RecvEvent.datagram [2] 0, RecvEvent.datagram [1] 0] =
      listenerDemo.listen parseDemo fromPacketDemo
        [RecvEvent.datagram [1] 0] :=
  listen_skips_malformed listenerDemo parseDemo fromPacketDemo [2] 0
    [RecvEvent.datagram [1] 0] (by decide)

/-- C4 counterexample: in `try_stream!` the `?` on `recv_from` makes
the stream yield the error and terminate, so a valid datagram arriving
after a transport error produces nothing, although the same datagram
alone produces an `Ok` item — the stream does not continue receiving
after an `Err`. -/
theorem listen_err_not_continue_cex :
    listenerDemo.listen (ε := Nat) parseDemo fromPacketDemo
        [RecvEvent.failure 7, RecvEvent.datagram [1] 0] = [Except.error 7] ∧
      listenerDemo.listen (ε := Nat) parseDemo fromPacketDemo
        [RecvEvent.datagram [1] 0] = [Except.ok (fromPacketDemo 1 0)] ∧
      ¬ Except.ok (fromPacketDemo 1 0) ∈
          listenerDemo.listen (ε := Nat) parseDemo fromPacketDemo
            [RecvEvent.failure 7, RecvEvent.datagram [1] 0] := by
  have h1 : listenerDemo.listen (ε := Nat) parseDemo fromPacketDemo
      [RecvEvent.failure 7, RecvEvent.datagram [1] 0] = [Except.error 7] := rfl
  refine ⟨h1, rfl, ?_⟩
  rw [h1]
  simp

/-- C4 amended: when a receive fails with a transport error, the
listener stream yields that error as its final item and terminates; no
later receive event contributes any further item. -/
theorem listen_err_is_final {ε π : Type} (l : mDNSListenerM)
    (parse : List Nat → Option π) (from_packet : π → Nat → Response)
    (e : ε) (rest : List (RecvEvent ε)) :
    l.listen parse from_packet (.failure e :: rest) = [Except.error e] :=
  rfl

/-- C5: the per-interface join algorithm of `mdns_interface`, given
that the socket setup calls themselves succeed: a requested interface
whose join fails makes the whole open fail with that error; if any
enumerated non-loopback IPv4 join succeeds the open succeeds; if none
succeeded the result is exactly the wildcard join's result mapped onto
the listener/sender pair (so it fails only if the 0.0.0.0 join fails);
and an empty or failed enumeration counts as no join having
succeeded. -/
theorem mdns_interface_join_algorithm {ε : Type} (env : NetEnv ε)
    (service_name : String)
    (h1 : env.create_socket = .ok ())
    (h2 : env.set_multicast_loop_v4 = .ok ())
    (h3 : env.set_nonblocking = .ok ())
    (h4 : env.make_async_socket = .ok ()) :
    (∀ iface e, env.join_multicast_v4 iface = .error e →
        mdns_interface env service_name (some iface) = .error e) ∧
    (didJoinAll env = true →
        mdns_interface env service_name none =
          .ok ({ recv_buffer_len := 4096 }, { service_name := service_name })) ∧
    (didJoinAll env = false →
        mdns_interface env service_name none =
          (env.join_multicast_v4 ADDR_ANY).map
            (fun _ =>
              ({ recv_buffer_len := 4096 }, { service_name := service_name }))) ∧
    (env.get_if_addrs = .ok [] → didJoinAll env = false) ∧
    (∀ e, env.get_if_addrs = .error e → didJoinAll env = false) := by
  refine ⟨?_, ?_, ?_, ?_, ?_⟩
  · intro iface e hj
    simp [mdns_interface, h1, h2, h3, h4, hj]
  · intro hd
    simp [mdns_interface, h1, h2, h3, h4, hd]
  · intro hd
    cases hj : env.join_multicast_v4 ADDR_ANY with
    | error e => simp [mdns_interface, h1, h2, h3, h4, hd, hj, Except.map]
    | ok u => simp [mdns_interface, h1, h2, h3, h4, hd, hj, Except.map]
  · intro he
    simp [didJoinAll, he, v4Ifaces]
  · intro e he
    simp [didJoinAll, he]

/-- Witness for C5 in the all-interfaces branch: with every call
succeeding and one usable interface, the open succeeds. -/
theorem mdns_interface_join_algorithm_witness :
    mdns_interface envDemo "_foo._tcp.local" none =
      .ok ({ recv_buffer_len := 4096 },
           { service_name := "_foo._tcp.local" }) :=
  (mdns_interface_join_algorithm envDemo "_foo._tcp.local"
    rfl rfl rfl rfl).2.1 rfl

/-- C6: the query packet built by `send_request` has exactly one
question — the session's service name, query class IN, query type PTR,
the unicast-response bit cleared — a query ID of 0, and every datagram
the call transmits goes to 224.0.0.251 port 5353. -/
theorem send_request_query_shape {ε : Type} (s : mDNSSenderM)
    (encode : QueryPacket → Option (List Nat)) (send_result : Except ε Unit) :
    (queryPacket s.service_name).questions =
      [{ name := s.service_name, prefer_unicast := false,
         qtype := .PTR, qclass := .IN }] ∧
    (queryPacket s.service_name).id = 0 ∧
    ∀ item ∈ (s.send_request encode send_result).2,
      item.2 = (⟨224, 0, 0, 251⟩, 5353) := by
  refine ⟨rfl, rfl, ?_⟩
  intro item hitem
  unfold mDNSSenderM.send_request at hitem
  cases henc : encode (queryPacket s.service_name) with
  | none => simp [henc] at hitem
  | some packet_data =>
      cases send_result with
      | error e => simp [henc] at hitem
      | ok u =>
          simp [henc] at hitem
          simp [hitem, sendTarget, MULTICAST_ADDR, MULTICAST_PORT]

/-- Witness for C6: the one datagram of a concrete successful send goes
to the multicast endpoint. -/
theorem send_request_query_shape_witness :
    (([9], sendTarget) : List Nat × (Ipv4 × Nat)).2 = (⟨224, 0, 0, 251⟩, 5353) :=
  (send_request_query_shape (⟨"svc"⟩ : mDNSSenderM) encodeDemo
      (.ok () : Except Nat Unit)).2.2
    ([9], sendTarget) (by decide)

/-- C7: N `scan` calls whose socket sends all succeed put exactly N
query datagrams on the wire — one per call, each the encoded query to
the multicast endpoint — with no suppression or merging of repeated
calls. -/
theorem scan_n_times_sends_n {ε : Type} (sc : DiscoveryScanner)
    (encode : QueryPacket → Option (List Nat)) (packet_data : List Nat)
    (send_result : Nat → Except ε Unit) (n : Nat)
    (henc : encode (queryPacket sc.sender.service_name) = some packet_data)
    (hok : ∀ i, i < n → send_result i = .ok ()) :
    (scanRuns sc encode send_result n).2 =
      List.replicate n (packet_data, sendTarget) ∧
    (scanRuns sc encode send_result n).2.length = n := by
  have main : (scanRuns sc encode send_result n).2 =
      List.replicate n (packet_data, sendTarget) := by
    induction n with
    | zero => rfl
    | succ m ih =>
        have hd : ∀ i, i < m → send_result i = .ok () :=
          fun i hi => hok i (Nat.lt_succ_of_lt hi)
        have hm : send_result m = .ok () := hok m (Nat.lt_succ_self m)
        have ih2 := ih hd
        simp [scanRuns, DiscoveryScanner.scan, mDNSSenderM.send_request,
          henc, hm, ih2, List.replicate_succ']
  exact ⟨main, by simp [main]⟩

/-- Witness for C7 at three calls that all succeed. -/
theorem scan_n_times_sends_n_witness :
    (scanRuns ⟨⟨"svc"⟩⟩ encodeDemo (fun _ => (.ok () : Except Nat Unit)) 3).2 =
      List.replicate 3 ([9], sendTarget) ∧
    (scanRuns ⟨⟨"svc"⟩⟩ encodeDemo (fun _ => (.ok () : Except Nat Unit)) 3).2.length = 3 :=
  scan_n_times_sends_n ⟨⟨"svc"⟩⟩ encodeDemo [9]
    (fun _ => .ok ()) 3 rfl (fun _ _ => rfl)

/-- C8: when the codec encodes the built query (which, per its
contract, it does for every valid service name), the `unwrap` branch of
`send_request` is unreachable, and the call returns an `Err` exactly
when the socket send fails, with that transport error. -/
theorem send_request_panic_unreachable {ε : Type} (s : mDNSSenderM)
    (encode : QueryPacket → Option (List Nat)) (packet_data : List Nat)
    (send_result : Except ε Unit)
    (henc : encode (queryPacket s.service_name) = some packet_data) :
    (s.send_request encode send_result).1 ≠ .panicked ∧
    (∀ e, (s.send_request encode send_result).1 = .transport_failed e ↔
        send_result = .error e) := by
  cases send_result <;>
    simp [mDNSSenderM.send_request, henc]

/-- Witness for C8 at a concrete successful encode and send. -/
theorem send_request_panic_unreachable_witness :
    ((⟨"svc"⟩ : mDNSSenderM).send_request encodeDemo
        (.ok () : Except Nat Unit)).1 ≠ .panicked :=
  (send_request_panic_unreachable ⟨"svc"⟩ encodeDemo [9] (.ok ()) rfl).1

/-- C9: sessions built by `all` and by `interface` default
`ignore_empty` to true, and the builder method changes only that flag,
leaving the service name, sender and listener untouched. -/
theorem ignore_empty_default_and_frame {ε : Type} (env : NetEnv ε)
    (service_name : String) (interface_addr : Ipv4) (d d' : Discovery)
    (b : Bool) :
    (all env service_name = .ok d → d.ignore_empty = true) ∧
    (interface env service_name interface_addr = .ok d →
        d.ignore_empty = true) ∧
    (d'.set_ignore_empty b).ignore_empty = b ∧
    (d'.set_ignore_empty b).service_name = d'.service_name ∧
    (d'.set_ignore_empty b).mdns_sender = d'.mdns_sender ∧
    (d'.set_ignore_empty b).mdns_listener = d'.mdns_listener := by
  refine ⟨?_, ?_, rfl, rfl, rfl, rfl⟩
  · unfold all
    cases hm : mdns_interface env service_name none with
    | error e => intro h; cases h
    | ok p =>
        obtain ⟨lis, snd⟩ := p
        intro h
        cases h
        rfl
  · unfold interface
    cases hm : mdns_interface env service_name (some interface_addr) with
    | error e => intro h; cases h
    | ok p =>
        obtain ⟨lis, snd⟩ := p
        intro h
        cases h
        rfl

/-- Witness for C9: the concrete session `all` builds from the demo
environment has the flag set, and toggling it off only changes it. -/
theorem ignore_empty_default_and_frame_witness :
    discoveryDemo.ignore_empty = true ∧
      (discoveryDemo.set_ignore_empty false).ignore_empty = false :=
  ⟨(ignore_empty_default_and_frame envDemo "_foo._tcp.local" ⟨1, 2, 3, 4⟩
      discoveryDemo discoveryDemo false).1 rfl,
   (ignore_empty_default_and_frame envDemo "_foo._tcp.local" ⟨1, 2, 3, 4⟩
      discoveryDemo discoveryDemo false).2.2.1⟩

/-- Every successful `mdns_interface` returns the listener with the
4096-byte buffer and the sender carrying the service name. -/
theorem mdns_interface_ok_shape {ε : Type} (env : NetEnv ε)
    (service_name : String) (iopt : Option Ipv4)
    (pr : mDNSListenerM × mDNSSenderM)
    (hm : mdns_interface env service_name iopt = .ok pr) :
    pr = ({ recv_buffer_len := 4096 }, { service_name := service_name }) := by
  unfold mdns_interface at hm
  repeat' split at hm
  all_goals simp_all

/-- Listening on a datagram behaves exactly as listening on the
datagram truncated to the receive-buffer length: the decode step never
sees bytes past the buffer. -/
theorem listen_truncates {ε π : Type} (l : mDNSListenerM)
    (parse : List Nat → Option π) (from_packet : π → Nat → Response)
    (bytes : List Nat) (addr : Nat) (rest : List (RecvEvent ε)) :
    l.listen parse from_packet (.datagram bytes addr :: rest) =
      l.listen parse from_packet
        (.datagram (bytes.take l.recv_buffer_len) addr :: rest) := by
  rw [mDNSListenerM.listen]
  conv_rhs => rw [mDNSListenerM.listen]
  have hlen : min (bytes.take l.recv_buffer_len).length l.recv_buffer_len =
      min bytes.length l.recv_buffer_len := by
    simp [List.length_take]
    omega
  rw [hlen, List.take_take]
  have hmin : min (min bytes.length l.recv_buffer_len) l.recv_buffer_len =
      min bytes.length l.recv_buffer_len := by omega
  rw [hmin]

/-- A receive that reports zero bytes is skipped without decoding. -/
theorem listen_skips_empty {ε π : Type} (l : mDNSListenerM)
    (parse : List Nat → Option π) (from_packet : π → Nat → Response)
    (addr : Nat) (rest : List (RecvEvent ε)) :
    l.listen parse from_packet (.datagram [] addr :: rest) =
      l.listen parse from_packet rest := by
  rw [mDNSListenerM.listen]
  simp

/-- C10: the listener produced by `mdns_interface` carries the single
reused 4096-byte receive buffer, so the decode step sees at most the
first 4096 bytes of every datagram (a longer datagram is processed
exactly as its 4096-byte prefix), and a receive of zero bytes is
skipped, yielding neither a `Response` nor an `Err`. -/
theorem listener_buffer_truncation {ε π : Type} (env : NetEnv ε)
    (service_name : String) (iopt : Option Ipv4)
    (pr : mDNSListenerM × mDNSSenderM)
    (parse : List Nat → Option π) (from_packet : π → Nat → Response)
    (hm : mdns_interface env service_name iopt = .ok pr) :
    pr.1.recv_buffer_len = 4096 ∧
    (∀ bytes addr (rest : List (RecvEvent ε)),
        pr.1.listen parse from_packet (.datagram bytes addr :: rest) =
          pr.1.listen parse from_packet
            (.datagram (bytes.take 4096) addr :: rest)) ∧
    (∀ addr (rest : List (RecvEvent ε)),
        pr.1.listen parse from_packet (.datagram [] addr :: rest) =
          pr.1.listen parse from_packet rest) := by
  have hshape := mdns_interface_ok_shape env service_name iopt pr hm
  have hb : pr.1.recv_buffer_len = 4096 := by rw [hshape]
  refine ⟨hb, ?_, ?_⟩
  · intro bytes addr rest
    have ht := listen_truncates (ε := ε) pr.1 parse from_packet bytes addr rest
    rw [hb] at ht
    exact ht
  · intro addr rest
    exact listen_skips_empty pr.1 parse from_packet addr rest

/-- Witness for C10: the listener opened from the demo environment has
the 4096-byte buffer. -/
theorem listener_buffer_truncation_witness :
    (({ recv_buffer_len := 4096 }, { service_name := "svc" }) :
        mDNSListenerM × mDNSSenderM).1.recv_buffer_len = 4096 :=
  (listener_buffer_truncation envDemo "svc" none
      ({ recv_buffer_len := 4096 }, { service_name := "svc" })
      parseDemo fromPacketDemo rfl).1

end MdnsSpec
